import Mathlib

/-
  Verification development for the Sustainable-Engineering sediment-reuse
  pipeline (Sediment_out.py, Sediment_Use.py, economic_value.py,
  Site_Specific_Analysis.py).

  Shallow embedding conventions:
  * tabular rows become structures over ℚ; a possibly-missing (NaN) cell
    becomes `Option ℚ`;
  * pandas `fillna(0)` becomes `Option.getD 0`; a pandas sum over a column
    (which skips NaN) becomes a sum of `Option.getD 0` values;
  * `np.where(cond, x, np.nan)` becomes `if cond then some x else none`;
  * column-presence tests (`col in events.columns`) become explicit Bool
    flags passed to the embedded functions.
-/

namespace SustainableEng

/-- One row of the storm-event table (`All_EOF_StormEventLoadsRainCalculated.csv`)
after year extraction.  Concentration and load cells may be missing (NaN). -/
structure StormEvent where
  station : Nat
  year : Int
  runoff_volume : ℚ
  suspended_sediment_load_pounds : Option ℚ
  total_phosphorus_unfiltered_conc_mgL : Option ℚ
  total_nitrogen_conc_mgL : Option ℚ
  suspended_sediment_conc_mgL : Option ℚ
  orthophosphate_conc_mgL : Option ℚ
  total_Kjeldahl_nitrogen_unfiltered_conc_mgL : Option ℚ
  ammonia_plus_ammonium_conc_mgL : Option ℚ
deriving Repr, DecidableEq

/-- Sediment_out.py line 43 / Site_Specific_Analysis.py line 28:
`events["Sediment_load_kg"] = events["suspended_sediment_load_pounds"] * 0.45359237`.
A missing load stays missing (NaN propagates through the product). -/
def Sediment_load_kg (e : StormEvent) : Option ℚ :=
  e.suspended_sediment_load_pounds.map (fun p => p * (45359237 / 100000000))

/-- Sediment_out.py lines 49-54: nutrient mass (kg) = concentration (mg/L) ×
runoff volume (L) / 1e6; missing concentration propagates as missing mass. -/
def P_mass_kg (e : StormEvent) : Option ℚ :=
  e.total_phosphorus_unfiltered_conc_mgL.map (fun c => c * e.runoff_volume / 1000000)

/-- Sediment_out.py lines 50-54, nitrogen analogue of `P_mass_kg`. -/
def N_mass_kg (e : StormEvent) : Option ℚ :=
  e.total_nitrogen_conc_mgL.map (fun c => c * e.runoff_volume / 1000000)

/-- Sediment_out.py lines 65-69 and Site_Specific_Analysis.py lines 41-44:
particulate P concentration.  When the orthophosphate column is present:
`(events[P_conc].fillna(0) - events[orthophosphate_col].fillna(0)).clip(lower=0)`;
otherwise the fallback `events[P_conc].fillna(0)`. -/
def Particulate_P_conc_mgL (hasOrthophosphateCol : Bool) (e : StormEvent) : ℚ :=
  if hasOrthophosphateCol then
    max 0 (e.total_phosphorus_unfiltered_conc_mgL.getD 0 - e.orthophosphate_conc_mgL.getD 0)
  else
    e.total_phosphorus_unfiltered_conc_mgL.getD 0

/-- Sediment_out.py lines 72-76 and Site_Specific_Analysis.py lines 47-50:
particulate N concentration.  When both the TKN column and the ammonia column
are present: `(events[tkn_col].fillna(0) - events[ammonia_col].fillna(0)).clip(lower=0)`;
otherwise the fallback `events[N_conc].fillna(0)`. -/
def Particulate_N_conc_mgL (hasTknCol hasAmmoniaCol : Bool) (e : StormEvent) : ℚ :=
  if hasTknCol && hasAmmoniaCol then
    max 0 (e.total_Kjeldahl_nitrogen_unfiltered_conc_mgL.getD 0 -
      e.ammonia_plus_ammonium_conc_mgL.getD 0)
  else
    e.total_nitrogen_conc_mgL.getD 0

/-- Sediment_out.py lines 79-82: particulate masses per event (kg). -/
def Particulate_P_mass_kg (hasOrthophosphateCol : Bool) (e : StormEvent) : ℚ :=
  Particulate_P_conc_mgL hasOrthophosphateCol e * e.runoff_volume / 1000000

/-- Sediment_out.py lines 80-82, nitrogen analogue of `Particulate_P_mass_kg`. -/
def Particulate_N_mass_kg (hasTknCol hasAmmoniaCol : Bool) (e : StormEvent) : ℚ :=
  Particulate_N_conc_mgL hasTknCol hasAmmoniaCol e * e.runoff_volume / 1000000

/-- The events contributing to the (station, year) group of the
`groupby(["USGS_Station_Number","Year"])` calls in Sediment_out.py. -/
def eventsFor (evs : List StormEvent) (s : Nat) (y : Int) : List StormEvent :=
  evs.filter (fun e => e.station == s && e.year == y)

/-- Sediment_out.py lines 122, 127: `Valid_Sed` flag of a (station, year)
group: the count of non-missing suspended-sediment concentration readings is
positive, i.e. some contributing event has a reading. -/
def Valid_Sed (evs : List StormEvent) (s : Nat) (y : Int) : Bool :=
  (eventsFor evs s y).any (fun e => e.suspended_sediment_conc_mgL.isSome)

/-- Sediment_out.py lines 122, 126: `Valid_N` flag of a (station, year) group. -/
def Valid_N (evs : List StormEvent) (s : Nat) (y : Int) : Bool :=
  (eventsFor evs s y).any (fun e => e.total_nitrogen_conc_mgL.isSome)

/-- Sediment_out.py lines 122, 125: `Valid_P` flag of a (station, year) group. -/
def Valid_P (evs : List StormEvent) (s : Nat) (y : Int) : Bool :=
  (eventsFor evs s y).any (fun e => e.total_phosphorus_unfiltered_conc_mgL.isSome)

/-- A synthetic event whose only concentration reading is suspended sediment
(N and P concentrations absent), used to check flag independence. -/
def sedOnlyEvent : StormEvent :=
  { station := 1, year := 2001, runoff_volume := 10
    suspended_sediment_load_pounds := some 100
    total_phosphorus_unfiltered_conc_mgL := none
    total_nitrogen_conc_mgL := none
    suspended_sediment_conc_mgL := some 5
    orthophosphate_conc_mgL := none
    total_Kjeldahl_nitrogen_unfiltered_conc_mgL := none
    ammonia_plus_ammonium_conc_mgL := none }

/-- C2: each validity flag of a (station, year) group is true iff at least one
contributing event has a non-missing reading of the respective concentration
column; the flags are computed independently of each other (an event list with
only a sediment reading yields Valid_Sed = true, Valid_N = false,
Valid_P = false), and a group with no reading carries the Boolean false,
never a null. -/
theorem validity_flags_spec (evs : List StormEvent) (s : Nat) (y : Int) :
    (Valid_Sed evs s y = true ↔
      ∃ e ∈ eventsFor evs s y, e.suspended_sediment_conc_mgL.isSome = true) ∧
    (Valid_N evs s y = true ↔
      ∃ e ∈ eventsFor evs s y, e.total_nitrogen_conc_mgL.isSome = true) ∧
    (Valid_P evs s y = true ↔
      ∃ e ∈ eventsFor evs s y, e.total_phosphorus_unfiltered_conc_mgL.isSome = true) ∧
    (Valid_Sed [sedOnlyEvent] 1 2001 = true ∧
      Valid_N [sedOnlyEvent] 1 2001 = false ∧
      Valid_P [sedOnlyEvent] 1 2001 = false) := by
  refine ⟨?_, ?_, ?_, by decide⟩ <;>
    simp [Valid_Sed, Valid_N, Valid_P, List.any_eq_true]

/-- One row of the station-year aggregation `annual` of Sediment_out.py
(lines 108-139): summed masses, the station area, and the three
parameter-specific validity flags. -/
structure StationYear where
  station : Nat
  year : Int
  Sediment_load_kg : ℚ
  P_mass_kg : ℚ
  N_mass_kg : ℚ
  Particulate_P_mass_kg : ℚ
  Particulate_N_mass_kg : ℚ
  Area_ha : ℚ
  Valid_P : Bool
  Valid_N : Bool
  Valid_Sed : Bool
deriving Repr, DecidableEq

/-- Effective area of the sediment-valid subset of a year (name from the loop
variable `eff_area_sed`, Sediment_out.py line 156): sum of `Area_ha` over rows
with `Valid_Sed`. -/
def effAreaSed (sub : List StationYear) : ℚ :=
  ((sub.filter (fun r => r.Valid_Sed)).map (fun r => r.Area_ha)).sum

/-- Total sediment mass of the sediment-valid subset (`total_sed`, line 157). -/
def totalSed (sub : List StationYear) : ℚ :=
  ((sub.filter (fun r => r.Valid_Sed)).map (fun r => r.Sediment_load_kg)).sum

/-- Effective area of the N-valid subset (`eff_area_N`, line 164). -/
def effAreaN (sub : List StationYear) : ℚ :=
  ((sub.filter (fun r => r.Valid_N)).map (fun r => r.Area_ha)).sum

/-- Total N mass of the N-valid subset (`total_N`, line 165). -/
def totalN (sub : List StationYear) : ℚ :=
  ((sub.filter (fun r => r.Valid_N)).map (fun r => r.N_mass_kg)).sum

/-- Total particulate N mass of the N-valid subset (`total_particulate_N`,
line 166). -/
def totalParticulateN (sub : List StationYear) : ℚ :=
  ((sub.filter (fun r => r.Valid_N)).map (fun r => r.Particulate_N_mass_kg)).sum

/-- Effective area of the P-valid subset (`eff_area_P`, line 173). -/
def effAreaP (sub : List StationYear) : ℚ :=
  ((sub.filter (fun r => r.Valid_P)).map (fun r => r.Area_ha)).sum

/-- Total P mass of the P-valid subset (`total_P`, line 174). -/
def totalP (sub : List StationYear) : ℚ :=
  ((sub.filter (fun r => r.Valid_P)).map (fun r => r.P_mass_kg)).sum

/-- Total particulate P mass of the P-valid subset (`total_particulate_P`,
line 175). -/
def totalParticulateP (sub : List StationYear) : ℚ :=
  ((sub.filter (fun r => r.Valid_P)).map (fun r => r.Particulate_P_mass_kg)).sum

/-- Sediment_out.py line 202: the 20 t/ha reference dose in kg/ha. -/
def dose_kg_per_ha : ℚ := 20000

/-- One row of `annual_region` (Sediment_out.py lines 147-230): the per-year
regional totals, yields, grades, recovered-per-ha values and particulate
yields, with `None` standing for the NaN that `np.where(..., np.nan)`
or a skipped division produces. -/
structure RegionalAnnual where
  Year : Int
  Effective_Area_ha : ℚ
  Effective_Area_N_ha : ℚ
  Effective_Area_P_ha : ℚ
  Total_Sediment_kg : ℚ
  Total_N_kg : ℚ
  Total_P_kg : ℚ
  Particulate_P_kg : ℚ
  Particulate_N_kg : ℚ
  Sediment_kg_ha_yr : Option ℚ
  N_kg_ha_yr : Option ℚ
  P_kg_ha_yr : Option ℚ
  gP_per_kg_sediment : Option ℚ
  gN_per_kg_sediment : Option ℚ
  kgP_recovered_per_ha_20t : Option ℚ
  kgN_recovered_per_ha_20t : Option ℚ
  Particulate_P_kg_ha_yr : Option ℚ
  Particulate_N_kg_ha_yr : Option ℚ
deriving Repr, DecidableEq

/-- The body of the per-year loop of Sediment_out.py (lines 147-194) together
with the grade / recovered-per-ha columns (lines 202-218) and the particulate
yield columns (lines 221-230), applied to the station-year rows `sub` of one
year.  Every field mirrors the corresponding pandas expression; in particular
`Particulate_P_kg_ha_yr` and `Particulate_N_kg_ha_yr` divide by the stored
`Effective_Area_ha` column, which holds `eff_area_sed`. -/
def regionalRow (y : Int) (sub : List StationYear) : RegionalAnnual :=
  let eff_area_sed := ((sub.filter (fun r => r.Valid_Sed)).map (fun r => r.Area_ha)).sum
  let total_sed := ((sub.filter (fun r => r.Valid_Sed)).map (fun r => r.Sediment_load_kg)).sum
  let eff_area_N := ((sub.filter (fun r => r.Valid_N)).map (fun r => r.Area_ha)).sum
  let total_N := ((sub.filter (fun r => r.Valid_N)).map (fun r => r.N_mass_kg)).sum
  let total_particulate_N :=
    ((sub.filter (fun r => r.Valid_N)).map (fun r => r.Particulate_N_mass_kg)).sum
  let eff_area_P := ((sub.filter (fun r => r.Valid_P)).map (fun r => r.Area_ha)).sum
  let total_P := ((sub.filter (fun r => r.Valid_P)).map (fun r => r.P_mass_kg)).sum
  let total_particulate_P :=
    ((sub.filter (fun r => r.Valid_P)).map (fun r => r.Particulate_P_mass_kg)).sum
  let gP := if total_sed > 0 then some (total_particulate_P / total_sed * 1000) else none
  let gN := if total_sed > 0 then some (total_particulate_N / total_sed * 1000) else none
  { Year := y
    Effective_Area_ha := eff_area_sed
    Effective_Area_N_ha := eff_area_N
    Effective_Area_P_ha := eff_area_P
    Total_Sediment_kg := total_sed
    Total_N_kg := total_N
    Total_P_kg := total_P
    Particulate_P_kg := total_particulate_P
    Particulate_N_kg := total_particulate_N
    Sediment_kg_ha_yr := if eff_area_sed > 0 then some (total_sed / eff_area_sed) else none
    N_kg_ha_yr := if eff_area_N > 0 then some (total_N / eff_area_N) else none
    P_kg_ha_yr := if eff_area_P > 0 then some (total_P / eff_area_P) else none
    gP_per_kg_sediment := gP
    gN_per_kg_sediment := gN
    kgP_recovered_per_ha_20t := gP.map (fun g => g * dose_kg_per_ha / 1000)
    kgN_recovered_per_ha_20t := gN.map (fun g => g * dose_kg_per_ha / 1000)
    Particulate_P_kg_ha_yr :=
      if eff_area_sed > 0 then some (total_particulate_P / eff_area_sed) else none
    Particulate_N_kg_ha_yr :=
      if eff_area_sed > 0 then some (total_particulate_N / eff_area_sed) else none }

/-- A station-year valid only for sediment: area 10 ha, sediment 1000 kg. -/
def rowSedOnly : StationYear :=
  { station := 1, year := 2000, Sediment_load_kg := 1000, P_mass_kg := 0, N_mass_kg := 0
    Particulate_P_mass_kg := 0, Particulate_N_mass_kg := 0, Area_ha := 10
    Valid_P := false, Valid_N := false, Valid_Sed := true }

/-- A station-year valid only for N: area 5 ha, N mass 50 kg. -/
def rowNOnly : StationYear :=
  { station := 2, year := 2000, Sediment_load_kg := 0, P_mass_kg := 0, N_mass_kg := 50
    Particulate_P_mass_kg := 0, Particulate_N_mass_kg := 50, Area_ha := 5
    Valid_P := false, Valid_N := true, Valid_Sed := false }

/-- A station-year valid only for P: area 5 ha, particulate P mass 50 kg. -/
def rowPOnly : StationYear :=
  { station := 3, year := 2000, Sediment_load_kg := 0, P_mass_kg := 50, N_mass_kg := 0
    Particulate_P_mass_kg := 50, Particulate_N_mass_kg := 0, Area_ha := 5
    Valid_P := true, Valid_N := false, Valid_Sed := false }

/-- C1 counterexample: with one station valid only for sediment (10 ha,
1000 kg sediment) and one valid only for P (5 ha, 50 kg particulate P) in the
same year, the output column `Particulate_P_kg_ha_yr` is 50 / 10 = 5: the
particulate P mass (summed over the P-valid subset, 50 kg) is divided by the
sediment-valid effective area (10 ha), not by the P-valid effective area
(5 ha), so a per-hectare yield in the output does divide by an area computed
from a different parameter's valid subset, contrary to the claim. -/
theorem particulate_yield_mixed_area_cex :
    (regionalRow 2000 [rowSedOnly, rowPOnly]).Particulate_P_kg_ha_yr = some 5 ∧
    (regionalRow 2000 [rowSedOnly, rowPOnly]).Particulate_P_kg = 50 ∧
    (regionalRow 2000 [rowSedOnly, rowPOnly]).Effective_Area_ha = 10 ∧
    (regionalRow 2000 [rowSedOnly, rowPOnly]).Effective_Area_P_ha = 5 ∧
    (5 : ℚ) ≠ 50 / 5 := by
  refine ⟨?_, ?_, ?_, ?_, by norm_num⟩ <;>
    norm_num [regionalRow, rowSedOnly, rowPOnly]

/-- C1 amended: the sediment, N and P per-hectare yields each divide the
parameter-specific total mass by that parameter's own effective area (and are
null when that area is not positive), but the particulate P and particulate N
per-hectare yields divide the particulate masses (summed over the P-valid
resp. N-valid subsets) by the sediment-valid effective area
`Effective_Area_ha`, not by their own parameter's effective area. -/
theorem regional_yields_parameter_specific_areas (y : Int) (sub : List StationYear) :
    (effAreaSed sub > 0 →
      (regionalRow y sub).Sediment_kg_ha_yr = some (totalSed sub / effAreaSed sub)) ∧
    (effAreaN sub > 0 →
      (regionalRow y sub).N_kg_ha_yr = some (totalN sub / effAreaN sub)) ∧
    (effAreaP sub > 0 →
      (regionalRow y sub).P_kg_ha_yr = some (totalP sub / effAreaP sub)) ∧
    (effAreaSed sub > 0 →
      (regionalRow y sub).Particulate_P_kg_ha_yr =
        some (totalParticulateP sub / effAreaSed sub) ∧
      (regionalRow y sub).Particulate_N_kg_ha_yr =
        some (totalParticulateN sub / effAreaSed sub)) ∧
    (¬ effAreaSed sub > 0 →
      (regionalRow y sub).Particulate_P_kg_ha_yr = none ∧
      (regionalRow y sub).Particulate_N_kg_ha_yr = none) := by
  refine ⟨fun h => ?_, fun h => ?_, fun h => ?_, fun h => ⟨?_, ?_⟩, fun h => ⟨?_, ?_⟩⟩ <;>
    simp only [regionalRow, effAreaSed, effAreaN, effAreaP, totalSed, totalN, totalP,
      totalParticulateP, totalParticulateN] at h ⊢ <;>
    simp [h]

/-- C1 amended, witness: on the spec example (one station valid only for
sediment at 10 ha / 1000 kg, one valid only for N at 5 ha / 50 kg) the
sediment yield is 1000 / 10 = 100 kg/ha and the N yield is 50 / 5 = 10 kg/ha,
each from its own parameter-specific effective area. -/
theorem regional_yields_parameter_specific_areas_witness :
    (regionalRow 2000 [rowSedOnly, rowNOnly]).Sediment_kg_ha_yr =
      some (totalSed [rowSedOnly, rowNOnly] / effAreaSed [rowSedOnly, rowNOnly]) ∧
    (regionalRow 2000 [rowSedOnly, rowNOnly]).N_kg_ha_yr =
      some (totalN [rowSedOnly, rowNOnly] / effAreaN [rowSedOnly, rowNOnly]) ∧
    (regionalRow 2000 [rowSedOnly, rowNOnly]).Sediment_kg_ha_yr = some 100 ∧
    (regionalRow 2000 [rowSedOnly, rowNOnly]).N_kg_ha_yr = some 10 := by
  refine ⟨(regional_yields_parameter_specific_areas 2000 [rowSedOnly, rowNOnly]).1
      (by norm_num [effAreaSed, rowSedOnly, rowNOnly]),
    (regional_yields_parameter_specific_areas 2000 [rowSedOnly, rowNOnly]).2.1
      (by norm_num [effAreaN, rowSedOnly, rowNOnly]),
    by norm_num [regionalRow, rowSedOnly, rowNOnly],
    by norm_num [regionalRow, rowSedOnly, rowNOnly]⟩

/-- A station-year valid for P (50 kg particulate P) and for sediment, but
with zero sediment mass: the data-inconsistency case of the grade. -/
def rowZeroSed : StationYear :=
  { station := 4, year := 2000, Sediment_load_kg := 0, P_mass_kg := 50, N_mass_kg := 0
    Particulate_P_mass_kg := 50, Particulate_N_mass_kg := 0, Area_ha := 5
    Valid_P := true, Valid_N := false, Valid_Sed := true }

/-- C3: the sediment grades `gP_per_kg_sediment` and `gN_per_kg_sediment`
equal particulate mass ÷ total sediment mass × 1000 (g/kg) when the total
sediment mass is positive, are null when the total sediment mass is zero
(even if the particulate mass is nonzero), and the recovered nutrient per
hectare at the 20 t/ha reference dose equals grade × 20000 / 1000 (kg/ha). -/
theorem sediment_grade_spec (y : Int) (sub : List StationYear) :
    (totalSed sub > 0 →
      (regionalRow y sub).gP_per_kg_sediment =
        some (totalParticulateP sub / totalSed sub * 1000) ∧
      (regionalRow y sub).gN_per_kg_sediment =
        some (totalParticulateN sub / totalSed sub * 1000) ∧
      (regionalRow y sub).kgP_recovered_per_ha_20t =
        some (totalParticulateP sub / totalSed sub * 1000 * 20000 / 1000) ∧
      (regionalRow y sub).kgN_recovered_per_ha_20t =
        some (totalParticulateN sub / totalSed sub * 1000 * 20000 / 1000)) ∧
    (totalSed sub = 0 →
      (regionalRow y sub).gP_per_kg_sediment = none ∧
      (regionalRow y sub).gN_per_kg_sediment = none ∧
      (regionalRow y sub).kgP_recovered_per_ha_20t = none ∧
      (regionalRow y sub).kgN_recovered_per_ha_20t = none) := by
  constructor
  · intro h
    simp only [totalSed, totalParticulateP, totalParticulateN] at h ⊢
    simp [regionalRow, h, dose_kg_per_ha]
  · intro h
    simp only [totalSed] at h
    simp [regionalRow, h]

/-- The all-parameter-valid station of the end-to-end scenario in the spec:
100 ha, 2,000,000 kg sediment, 400 kg particulate P, 4000 kg particulate N. -/
def rowAllValid : StationYear :=
  { station := 9, year := 2000, Sediment_load_kg := 2000000, P_mass_kg := 500
    N_mass_kg := 5000, Particulate_P_mass_kg := 400, Particulate_N_mass_kg := 4000
    Area_ha := 100, Valid_P := true, Valid_N := true, Valid_Sed := true }

/-- C3, witness: for a year whose only station has 2,000,000 kg sediment and
400 kg particulate P (the spec end-to-end example has grade P = 0.2 g/kg and
recovered P at 20 t/ha = 4 kg/ha), the grade and recovered values are as
claimed; and for a year with zero total sediment but 50 kg particulate P the
grade is null, not zero. -/
theorem sediment_grade_spec_witness :
    ((regionalRow 2000 [rowAllValid]).gP_per_kg_sediment = some (1/5) ∧
     (regionalRow 2000 [rowAllValid]).kgP_recovered_per_ha_20t = some 4) ∧
    ((regionalRow 2000 [rowZeroSed]).gP_per_kg_sediment = none ∧
     totalParticulateP [rowZeroSed] = 50) := by
  constructor
  · have h := (sediment_grade_spec 2000 [rowAllValid]).1
      (by norm_num [totalSed, rowAllValid])
    refine ⟨h.1.trans ?_, h.2.2.1.trans ?_⟩ <;>
      norm_num [totalParticulateP, totalSed, rowAllValid]
  · have h := (sediment_grade_spec 2000 [rowZeroSed]).2
      (by norm_num [totalSed, rowZeroSed])
    exact ⟨h.1, by norm_num [totalParticulateP, rowZeroSed]⟩

/-- Sediment_Use.py line 15: the dose assumption, 20 t/ha = 20000 kg/ha. -/
def DOSE_KG_PER_HA : ℚ := 20000

/-- Sediment_Use.py lines 21-24:
`annual["ReuseArea_20t_ha"] = annual["Total_Sediment_kg"] / DOSE_KG_PER_HA`
followed by `fillna(0)`: a missing total sediment mass gives reuse area 0. -/
def ReuseArea_20t_ha (total_sediment_kg : Option ℚ) : ℚ :=
  (total_sediment_kg.map (fun t => t / DOSE_KG_PER_HA)).getD 0

/-- C4: the reuse area at the 20 t/ha dose equals total sediment mass ÷ 20000,
and a zero or missing total sediment mass gives reuse area exactly 0 (a plain
rational, never null) — in contrast to the yield computations, where a year
with no sediment-valid area has a null yield. -/
theorem reuse_area_spec :
    (∀ t : ℚ, ReuseArea_20t_ha (some t) = t / 20000) ∧
    ReuseArea_20t_ha (some 0) = 0 ∧
    ReuseArea_20t_ha none = 0 ∧
    (regionalRow 2000 []).Sediment_kg_ha_yr = none := by
  refine ⟨fun t => rfl, by norm_num [ReuseArea_20t_ha, DOSE_KG_PER_HA], rfl, rfl⟩

/-- economic_value.py line 26: fertilizer price, USD per kg N. -/
def price_N : ℚ := 189/100

/-- economic_value.py line 27: fertilizer price, USD per kg P. -/
def price_P : ℚ := 537/100

/-- economic_value.py line 28: crop N demand, kg/ha. -/
def fert_N_need : ℚ := 150

/-- economic_value.py line 29: crop P demand, kg/ha. -/
def fert_P_need : ℚ := 22

/-- economic_value.py line 36: cost of conventional fertilizer, USD per ha. -/
def cost_per_ha : ℚ := fert_N_need * price_N + fert_P_need * price_P

/-- economic_value.py line 42: processing recovery efficiency. -/
def recovery_efficiency : ℚ := 8/10

/-- economic_value.py line 43: in-season N availability fraction. -/
def availability_N : ℚ := 5/10

/-- economic_value.py line 44: P availability fraction. -/
def availability_P : ℚ := 8/10

/-- economic_value.py lines 52-59: applied per-hectare nutrient.  When the
grade-derived recovered columns are present (`hasRecoveredCols`), the applied
value is `annual["kg?_recovered_per_ha_20t"].fillna(0)`; otherwise the
fallback divides the particulate mass by `ReuseArea_20t_ha.replace(0, np.nan)`,
so a zero reuse area makes the fallback value NaN.  Used for both N
(line 53 / 58) and P (line 54 / 59). -/
def applied_kg_per_ha (hasRecoveredCols : Bool) (kg_recovered_per_ha_20t : Option ℚ)
    (particulate_kg : ℚ) (reuseArea : ℚ) : Option ℚ :=
  if hasRecoveredCols then
    some (kg_recovered_per_ha_20t.getD 0)
  else if reuseArea = 0 then none
  else some (particulate_kg / reuseArea)

/-- economic_value.py lines 62-67: usable nutrient per hectare = applied ×
recovery efficiency × availability fraction, then `clip(lower=0)`; NaN
propagates. -/
def usable_kg_per_ha (availability : ℚ) (applied : Option ℚ) : Option ℚ :=
  applied.map (fun a => max 0 (a * recovery_efficiency * availability))

/-- economic_value.py lines 72-78: percent of demand replaced =
`(usable / need).clip(0, 1)`; NaN propagates. -/
def percent_saved (need : ℚ) (usable : Option ℚ) : Option ℚ :=
  usable.map (fun u => min 1 (max 0 (u / need)))

/-- economic_value.py line 83: `Percent_saved_total` = row-wise minimum of
`Percent_saved_N` and `Percent_saved_P`; pandas `min(axis=1)` skips NaN, so
the minimum of a value and NaN is the value, and only an all-NaN row is NaN. -/
def percent_saved_total (pn pp : Option ℚ) : Option ℚ :=
  match pn, pp with
  | some a, some b => some (min a b)
  | some a, none => some a
  | none, some b => some b
  | none, none => none

/-- Addition of two possibly-NaN cells: NaN propagates (pandas `+`). -/
def optAdd (a b : Option ℚ) : Option ℚ :=
  match a, b with
  | some x, some y => some (x + y)
  | _, _ => none

/-- economic_value.py lines 90-93 (Method A): per-ha value = limiting percent
× `cost_per_ha`; total = per-ha value × reuse area. -/
def Cost_reduction_total_USD_limiting (pt : Option ℚ) (reuseArea : ℚ) : Option ℚ :=
  (pt.map (fun p => p * cost_per_ha)).map (fun c => c * reuseArea)

/-- economic_value.py lines 96-107 (Method B): per-nutrient saving =
`usable.clip(upper=need) * price`, summed and multiplied by the reuse area. -/
def Cost_reduction_total_USD (uN uP : Option ℚ) (reuseArea : ℚ) : Option ℚ :=
  (optAdd (uN.map (fun u => min u fert_N_need * price_N))
      (uP.map (fun u => min u fert_P_need * price_P))).map
    (fun c => c * reuseArea)

/-- C5: the Method A total equals limiting percent × (N demand × N price +
P demand × P price) × reuse area; the Method B total equals
(min(usable N, N demand) × N price + min(usable P, P demand) × P price) ×
reuse area; both are computed from the same usable-per-hectare inputs, and on
the input usable N = 150, usable P = 0, reuse area = 1 the two totals differ
(Method A gives 0, Method B gives 283.5). -/
theorem econ_methods_spec :
    (∀ p reuseArea : ℚ,
      Cost_reduction_total_USD_limiting (some p) reuseArea =
        some (p * (fert_N_need * price_N + fert_P_need * price_P) * reuseArea)) ∧
    (∀ x y reuseArea : ℚ,
      Cost_reduction_total_USD (some x) (some y) reuseArea =
        some ((min x fert_N_need * price_N + min y fert_P_need * price_P) * reuseArea)) ∧
    Cost_reduction_total_USD_limiting
        (percent_saved_total (percent_saved fert_N_need (some 150))
          (percent_saved fert_P_need (some 0))) 1 ≠
      Cost_reduction_total_USD (some 150) (some 0) 1 := by
  refine ⟨fun p r => rfl, fun x y r => rfl, ?_⟩
  norm_num [Cost_reduction_total_USD_limiting, Cost_reduction_total_USD, percent_saved,
    percent_saved_total, optAdd, cost_per_ha, fert_N_need, fert_P_need, price_N, price_P]

/-- C6: usable per-hectare nutrient equals applied × recovery efficiency ×
that nutrient's availability fraction, floored at zero; the percent of demand
replaced equals usable ÷ demand clamped to [0,1]; the limiting percent is the
minimum of the N and P percentages; and on the spec end-to-end values
(applied N = 40, applied P = 4) usable N = 16, usable P = 2.56, and the
limiting percent is 16/150. -/
theorem usable_percent_limiting_spec :
    (∀ a : ℚ, usable_kg_per_ha availability_N (some a) =
      some (max 0 (a * recovery_efficiency * availability_N))) ∧
    (∀ a : ℚ, usable_kg_per_ha availability_P (some a) =
      some (max 0 (a * recovery_efficiency * availability_P))) ∧
    (∀ u : ℚ, percent_saved fert_N_need (some u) =
      some (min 1 (max 0 (u / fert_N_need)))) ∧
    (∀ u : ℚ, percent_saved fert_P_need (some u) =
      some (min 1 (max 0 (u / fert_P_need)))) ∧
    (∀ a b : ℚ, percent_saved_total (some a) (some b) = some (min a b)) ∧
    (usable_kg_per_ha availability_N (some 40) = some 16 ∧
     usable_kg_per_ha availability_P (some 4) = some (64/25) ∧
     percent_saved_total
        (percent_saved fert_N_need (usable_kg_per_ha availability_N (some 40)))
        (percent_saved fert_P_need (usable_kg_per_ha availability_P (some 4))) =
      some (16/150)) := by
  refine ⟨fun a => rfl, fun a => rfl, fun u => rfl, fun u => rfl, fun a b => rfl, ?_, ?_, ?_⟩ <;>
    norm_num [usable_kg_per_ha, percent_saved, percent_saved_total, availability_N,
      availability_P, recovery_efficiency, fert_N_need, fert_P_need]

/-- C7 counterexample: with the grade-derived columns present but the
year's recovered value missing (e.g. a year with zero total sediment), the
applied per-hectare value is `fillna(0)`, i.e. exactly 0 — the missing value
is treated as zero rather than kept undefined, and no fallback to particulate
mass ÷ reuse area (which here would be 5/3) happens. -/
theorem applied_missing_zero_filled_cex :
    applied_kg_per_ha true none 5 3 = some 0 ∧
    applied_kg_per_ha true none 5 3 ≠ none ∧
    (0 : ℚ) ≠ 5 / 3 := by
  refine ⟨rfl, by simp [applied_kg_per_ha], by norm_num⟩

/-- C7 amended: the applied per-hectare nutrient equals the grade-derived
recovered-per-hectare value whenever that value is present; when the
grade-derived columns are present but a year's value is missing, the applied
value is explicitly zero-filled to 0 (not undefined, and no fallback); only
when the grade-derived columns are absent does the computation fall back to
total particulate mass ÷ reuse area, and in that fallback a zero reuse area
produces an undefined (not zero) applied value. -/
theorem applied_per_ha_spec :
    (∀ (v particulate_kg reuseArea : ℚ),
      applied_kg_per_ha true (some v) particulate_kg reuseArea = some v) ∧
    (∀ (particulate_kg reuseArea : ℚ),
      applied_kg_per_ha true none particulate_kg reuseArea = some 0) ∧
    (∀ (rec : Option ℚ) (particulate_kg : ℚ),
      applied_kg_per_ha false rec particulate_kg 0 = none) ∧
    (∀ (rec : Option ℚ) (particulate_kg reuseArea : ℚ), reuseArea ≠ 0 →
      applied_kg_per_ha false rec particulate_kg reuseArea =
        some (particulate_kg / reuseArea)) := by
  refine ⟨fun v pk r => rfl, fun pk r => rfl, fun rec pk => rfl, fun rec pk r h => ?_⟩
  simp [applied_kg_per_ha, h]

/-- C7 amended, witness: with the grade-derived columns absent, particulate
mass 6 kg and reuse area 2 ha the fallback applied value is 6 / 2 = 3 kg/ha. -/
theorem applied_per_ha_spec_witness :
    applied_kg_per_ha false none 6 2 = some (6 / 2) :=
  applied_per_ha_spec.2.2.2 none 6 2 (by norm_num)

/-- A storm event with every concentration reading present. -/
def fullEvent : StormEvent :=
  { station := 7, year := 2002, runoff_volume := 100
    suspended_sediment_load_pounds := some 10
    total_phosphorus_unfiltered_conc_mgL := some 3
    total_nitrogen_conc_mgL := some 4
    suspended_sediment_conc_mgL := some 9
    orthophosphate_conc_mgL := some 1
    total_Kjeldahl_nitrogen_unfiltered_conc_mgL := some 5
    ammonia_plus_ammonium_conc_mgL := some 2 }

/-- C8: with the orthophosphate column present, the particulate P
concentration equals max(0, total unfiltered P − orthophosphate P) and is
unconditionally ≥ 0; when the column is absent it falls back to the total P
concentration.  With both the TKN and the ammonia column present, the
particulate N concentration equals max(0, TKN − ammonia) and is
unconditionally ≥ 0; when either column is absent it falls back to the total
N concentration.  The fallback values are ≥ 0 whenever the total
concentration readings are (a concentration is a non-negative measurement). -/
theorem particulate_conc_spec (e : StormEvent) :
    (∀ p o : ℚ, e.total_phosphorus_unfiltered_conc_mgL = some p →
      e.orthophosphate_conc_mgL = some o →
      Particulate_P_conc_mgL true e = max 0 (p - o)) ∧
    (∀ p : ℚ, e.total_phosphorus_unfiltered_conc_mgL = some p →
      Particulate_P_conc_mgL false e = p) ∧
    (∀ t a : ℚ, e.total_Kjeldahl_nitrogen_unfiltered_conc_mgL = some t →
      e.ammonia_plus_ammonium_conc_mgL = some a →
      Particulate_N_conc_mgL true true e = max 0 (t - a)) ∧
    (∀ n : ℚ, e.total_nitrogen_conc_mgL = some n →
      Particulate_N_conc_mgL false true e = n ∧
      Particulate_N_conc_mgL true false e = n ∧
      Particulate_N_conc_mgL false false e = n) ∧
    0 ≤ Particulate_P_conc_mgL true e ∧
    0 ≤ Particulate_N_conc_mgL true true e ∧
    ((∀ p, e.total_phosphorus_unfiltered_conc_mgL = some p → 0 ≤ p) →
      0 ≤ Particulate_P_conc_mgL false e) ∧
    ((∀ n, e.total_nitrogen_conc_mgL = some n → 0 ≤ n) →
      0 ≤ Particulate_N_conc_mgL false false e) := by
  refine ⟨fun p o hp ho => by simp [Particulate_P_conc_mgL, hp, ho],
    fun p hp => by simp [Particulate_P_conc_mgL, hp],
    fun t a ht ha => by simp [Particulate_N_conc_mgL, ht, ha],
    fun n hn => by simp [Particulate_N_conc_mgL, hn],
    by simp [Particulate_P_conc_mgL],
    by simp [Particulate_N_conc_mgL],
    fun h => ?_, fun h => ?_⟩
  · cases hp : e.total_phosphorus_unfiltered_conc_mgL with
    | none => simp [Particulate_P_conc_mgL, hp]
    | some p => simpa [Particulate_P_conc_mgL, hp] using h p hp
  · cases hn : e.total_nitrogen_conc_mgL with
    | none => simp [Particulate_N_conc_mgL, hn]
    | some n => simpa [Particulate_N_conc_mgL, hn] using h n hn

/-- C8, witness: on the event with total P = 3, orthophosphate = 1, TKN = 5,
ammonia = 2, total N = 4, the particulate concentrations are max(0, 3 − 1),
3 (fallback), max(0, 5 − 2) and 4 (fallback), and the fallback value is
non-negative. -/
theorem particulate_conc_spec_witness :
    Particulate_P_conc_mgL true fullEvent = max 0 (3 - 1) ∧
    Particulate_P_conc_mgL false fullEvent = 3 ∧
    Particulate_N_conc_mgL true true fullEvent = max 0 (5 - 2) ∧
    Particulate_N_conc_mgL false false fullEvent = 4 ∧
    0 ≤ Particulate_P_conc_mgL false fullEvent := by
  refine ⟨(particulate_conc_spec fullEvent).1 3 1 rfl rfl,
    (particulate_conc_spec fullEvent).2.1 3 rfl,
    (particulate_conc_spec fullEvent).2.2.1 5 2 rfl rfl,
    ((particulate_conc_spec fullEvent).2.2.2.1 4 rfl).2.2,
    (particulate_conc_spec fullEvent).2.2.2.2.2.2.1 ?_⟩
  intro p hp
  rw [show fullEvent.total_phosphorus_unfiltered_conc_mgL = some 3 from rfl] at hp
  injection hp with hp
  rw [← hp]
  norm_num

/-
  Site_Specific_Analysis.py: per-station aggregation, the load filter, the
  P-limited dose optimization and the site valuation.
-/

/-- The distinct stations of the event table, i.e. the group keys of
`events.groupby("USGS_Station_Number")` (Site_Specific_Analysis.py line 59). -/
def stationList (evs : List StormEvent) : List Nat :=
  (evs.map (fun e => e.station)).dedup

/-- Site_Specific_Analysis.py lines 59-60: per-station sum of
`Sediment_load_kg` (pandas sum skips missing loads). -/
def siteSedimentLoad (evs : List StormEvent) (s : Nat) : ℚ :=
  ((evs.filter (fun e => e.station == s)).map (fun e => (Sediment_load_kg e).getD 0)).sum

/-- Site_Specific_Analysis.py lines 59-61: per-station sum of
`Particulate_P_mass_kg`. -/
def siteParticulatePMass (hasOrthophosphateCol : Bool) (evs : List StormEvent)
    (s : Nat) : ℚ :=
  ((evs.filter (fun e => e.station == s)).map
    (fun e => Particulate_P_mass_kg hasOrthophosphateCol e)).sum

/-- Site_Specific_Analysis.py lines 59-62: per-station sum of
`Particulate_N_mass_kg`. -/
def siteParticulateNMass (hasTknCol hasAmmoniaCol : Bool) (evs : List StormEvent)
    (s : Nat) : ℚ :=
  ((evs.filter (fun e => e.station == s)).map
    (fun e => Particulate_N_mass_kg hasTknCol hasAmmoniaCol e)).sum

/-- Site_Specific_Analysis.py lines 59-65: `Years_Monitored` = number of
distinct years among the station's events. -/
def siteYearsMonitored (evs : List StormEvent) (s : Nat) : Nat :=
  (((evs.filter (fun e => e.station == s)).map (fun e => e.year)).dedup).length

/-- Site_Specific_Analysis.py line 68: the retained stations, those whose
total sediment load exceeds 100 kg
(`site_stats[site_stats["Sediment_load_kg"] > 100]`). -/
def retainedStations (evs : List StormEvent) : List Nat :=
  (stationList evs).filter (fun s => decide (siteSedimentLoad evs s > 100))

/-- Site_Specific_Analysis.py line 71: average annual load = total load ÷
years monitored. -/
def Avg_Annual_Load_kg (evs : List StormEvent) (s : Nat) : ℚ :=
  siteSedimentLoad evs s / (siteYearsMonitored evs s : ℚ)

/-- Site_Specific_Analysis.py line 76: `Grade_N_g_kg`. -/
def Grade_N_g_kg (hasTknCol hasAmmoniaCol : Bool) (evs : List StormEvent) (s : Nat) : ℚ :=
  siteParticulateNMass hasTknCol hasAmmoniaCol evs s / siteSedimentLoad evs s * 1000

/-- Site_Specific_Analysis.py line 77: `Grade_P_g_kg`. -/
def Grade_P_g_kg (hasOrthophosphateCol : Bool) (evs : List StormEvent) (s : Nat) : ℚ :=
  siteParticulatePMass hasOrthophosphateCol evs s / siteSedimentLoad evs s * 1000

/-- Site_Specific_Analysis.py line 82: price of N, USD per kg. -/
def PRICE_N : ℚ := 189/100

/-- Site_Specific_Analysis.py line 83: price of P, USD per kg. -/
def PRICE_P : ℚ := 537/100

/-- Site_Specific_Analysis.py line 84: crop N demand, kg/ha. -/
def FERT_N_NEED : ℚ := 150

/-- Site_Specific_Analysis.py line 85: crop P demand, kg/ha. -/
def FERT_P_NEED : ℚ := 22

/-- Site_Specific_Analysis.py line 86: N availability fraction. -/
def AVAIL_N : ℚ := 4/10

/-- Site_Specific_Analysis.py line 87: P availability fraction. -/
def AVAIL_P : ℚ := 8/10

/-- Site_Specific_Analysis.py line 100: the physical dose limit, 100 t/ha. -/
def PHYSICAL_LIMIT_KG : ℚ := 100000

/-- Site_Specific_Analysis.py line 90: effective P content per kg sediment
= (Grade_P in g/kg ÷ 1000) × availability. -/
def Effective_P_content (gradeP : ℚ) : ℚ := gradeP / 1000 * AVAIL_P

/-- Site_Specific_Analysis.py lines 93-97: the P-limited maximal dose,
`np.where(Effective_P_content > 0, FERT_P_NEED / Effective_P_content, 0)`. -/
def Max_Allowed_Dose_kg_ha (gradeP : ℚ) : ℚ :=
  if Effective_P_content gradeP > 0 then FERT_P_NEED / Effective_P_content gradeP else 0

/-- Site_Specific_Analysis.py line 101: the optimized dose, the maximal dose
clipped at the physical limit. -/
def Optimized_Dose_kg_ha (gradeP : ℚ) : ℚ :=
  min (Max_Allowed_Dose_kg_ha gradeP) PHYSICAL_LIMIT_KG

/-- Site_Specific_Analysis.py lines 105-109: potential reuse area =
average annual load ÷ optimized dose, 0 when the dose is 0. -/
def Potential_Reuse_Area_ha (gradeP avgLoad : ℚ) : ℚ :=
  if Optimized_Dose_kg_ha gradeP > 0 then avgLoad / Optimized_Dose_kg_ha gradeP else 0

/-- Site_Specific_Analysis.py line 112: N applied at the optimized dose. -/
def N_Applied_Optimized (gradeN gradeP : ℚ) : ℚ :=
  gradeN / 1000 * Optimized_Dose_kg_ha gradeP

/-- Site_Specific_Analysis.py line 113: P applied at the optimized dose. -/
def P_Applied_Optimized (gradeP : ℚ) : ℚ :=
  gradeP / 1000 * Optimized_Dose_kg_ha gradeP

/-- Site_Specific_Analysis.py line 116: plant-available N per hectare. -/
def N_Available_kg_ha (gradeN gradeP : ℚ) : ℚ :=
  N_Applied_Optimized gradeN gradeP * AVAIL_N

/-- Site_Specific_Analysis.py line 117: plant-available P per hectare. -/
def P_Available_kg_ha (gradeP : ℚ) : ℚ :=
  P_Applied_Optimized gradeP * AVAIL_P

/-- Site_Specific_Analysis.py line 120: demand-capped N value per hectare. -/
def Value_N_USD_ha (gradeN gradeP : ℚ) : ℚ :=
  min (N_Available_kg_ha gradeN gradeP) FERT_N_NEED * PRICE_N

/-- Site_Specific_Analysis.py line 121: demand-capped P value per hectare. -/
def Value_P_USD_ha (gradeP : ℚ) : ℚ :=
  min (P_Available_kg_ha gradeP) FERT_P_NEED * PRICE_P

/-- Site_Specific_Analysis.py line 122: total value per hectare. -/
def Total_Value_USD_ha (gradeN gradeP : ℚ) : ℚ :=
  Value_N_USD_ha gradeN gradeP + Value_P_USD_ha gradeP

/-- One row of the site-specific economics output table
(Site_Specific_Analysis.py lines 127-143). -/
structure SiteRow where
  station : Nat
  Sediment_load_kg : ℚ
  Avg_Annual_Load_kg : ℚ
  Grade_N_g_kg : ℚ
  Grade_P_g_kg : ℚ
  Optimized_Dose_kg_ha : ℚ
  Potential_Reuse_Area_ha : ℚ
  Total_Value_USD_ha : ℚ
deriving Repr, DecidableEq

/-- The output row of one retained station. -/
def siteRow (hasOrthophosphateCol hasTknCol hasAmmoniaCol : Bool)
    (evs : List StormEvent) (s : Nat) : SiteRow :=
  { station := s
    Sediment_load_kg := siteSedimentLoad evs s
    Avg_Annual_Load_kg := Avg_Annual_Load_kg evs s
    Grade_N_g_kg := Grade_N_g_kg hasTknCol hasAmmoniaCol evs s
    Grade_P_g_kg := Grade_P_g_kg hasOrthophosphateCol evs s
    Optimized_Dose_kg_ha := Optimized_Dose_kg_ha (Grade_P_g_kg hasOrthophosphateCol evs s)
    Potential_Reuse_Area_ha :=
      Potential_Reuse_Area_ha (Grade_P_g_kg hasOrthophosphateCol evs s)
        (Avg_Annual_Load_kg evs s)
    Total_Value_USD_ha :=
      Total_Value_USD_ha (Grade_N_g_kg hasTknCol hasAmmoniaCol evs s)
        (Grade_P_g_kg hasOrthophosphateCol evs s) }

/-- The site-specific economics output table: one row per retained station,
sorted by total value per hectare in descending order
(Site_Specific_Analysis.py lines 127-143). -/
def siteOutput (hasOrthophosphateCol hasTknCol hasAmmoniaCol : Bool)
    (evs : List StormEvent) : List SiteRow :=
  ((retainedStations evs).map
    (siteRow hasOrthophosphateCol hasTknCol hasAmmoniaCol evs)).insertionSort
    (fun a b => b.Total_Value_USD_ha ≤ a.Total_Value_USD_ha)

/-- An event giving station 1 a sediment load of 300 lb ≈ 136.08 kg > 100 kg. -/
def highLoadEvent : StormEvent :=
  { station := 1, year := 2003, runoff_volume := 1000
    suspended_sediment_load_pounds := some 300
    total_phosphorus_unfiltered_conc_mgL := some 2
    total_nitrogen_conc_mgL := some 3
    suspended_sediment_conc_mgL := some 4
    orthophosphate_conc_mgL := some 1
    total_Kjeldahl_nitrogen_unfiltered_conc_mgL := some 2
    ammonia_plus_ammonium_conc_mgL := some 1 }

/-- An event giving station 2 a sediment load of 10 lb ≈ 4.54 kg ≤ 100 kg. -/
def lowLoadEvent : StormEvent :=
  { station := 2, year := 2003, runoff_volume := 1000
    suspended_sediment_load_pounds := some 10
    total_phosphorus_unfiltered_conc_mgL := some 2
    total_nitrogen_conc_mgL := some 3
    suspended_sediment_conc_mgL := some 4
    orthophosphate_conc_mgL := some 1
    total_Kjeldahl_nitrogen_unfiltered_conc_mgL := some 2
    ammonia_plus_ammonium_conc_mgL := some 1 }

/-- C9: every row of the site-specific economics output comes from a station
whose summed sediment load exceeds 100 kg; every station of the event table
with summed load > 100 kg is retained in the output; and no output row comes
from a station with summed load ≤ 100 kg. -/
theorem site_output_load_filter (hasO hT hA : Bool) (evs : List StormEvent) :
    (∀ row ∈ siteOutput hasO hT hA evs, siteSedimentLoad evs row.station > 100) ∧
    (∀ s ∈ stationList evs, siteSedimentLoad evs s > 100 →
      siteRow hasO hT hA evs s ∈ siteOutput hasO hT hA evs) ∧
    (∀ s : Nat, ¬ siteSedimentLoad evs s > 100 →
      ∀ row ∈ siteOutput hasO hT hA evs, row.station ≠ s) := by
  have hmem : ∀ row : SiteRow, row ∈ siteOutput hasO hT hA evs ↔
      row ∈ (retainedStations evs).map (siteRow hasO hT hA evs) := by
    intro row
    exact List.mem_insertionSort _
  have hfwd : ∀ row ∈ siteOutput hasO hT hA evs, siteSedimentLoad evs row.station > 100 := by
    intro row hrow
    rw [hmem] at hrow
    obtain ⟨s, hs, rfl⟩ := List.mem_map.1 hrow
    have := (List.mem_filter.1 hs).2
    simpa [siteRow] using of_decide_eq_true this
  refine ⟨hfwd, ?_, ?_⟩
  · intro s hs hload
    rw [hmem]
    exact List.mem_map_of_mem _
      (List.mem_filter.2 ⟨hs, decide_eq_true hload⟩)
  · intro s hns row hrow heq
    exact hns (heq ▸ hfwd row hrow)

/-- C9, witness: with one station of total load ≈ 136 kg and one of total
load ≈ 4.5 kg, the first station's row is in the output and no output row
comes from the second station. -/
theorem site_output_load_filter_witness :
    siteRow false false false [highLoadEvent, lowLoadEvent] 1 ∈
      siteOutput false false false [highLoadEvent, lowLoadEvent] ∧
    (∀ row ∈ siteOutput false false false [highLoadEvent, lowLoadEvent],
      row.station ≠ 2) := by
  constructor
  · refine (site_output_load_filter false false false
      [highLoadEvent, lowLoadEvent]).2.1 1 ?_ ?_
    · simp [stationList, highLoadEvent, lowLoadEvent]
    · norm_num [siteSedimentLoad, Sediment_load_kg, highLoadEvent, lowLoadEvent]
  · exact (site_output_load_filter false false false
      [highLoadEvent, lowLoadEvent]).2.2 2
      (by norm_num [siteSedimentLoad, Sediment_load_kg, highLoadEvent, lowLoadEvent])

/-- C10: the plant-available P per hectare at the optimized dose equals the
effective P content times the optimized dose and never exceeds the P demand
of 22 kg/ha; when the effective P content is positive the optimized dose is
min(P demand ÷ effective P content, 100000); and a grade with zero effective
P content gives dose 0, reuse area 0 and zero applied N and P. -/
theorem optimized_dose_p_cap (gradeN gradeP avgLoad : ℚ) :
    P_Available_kg_ha gradeP = Effective_P_content gradeP * Optimized_Dose_kg_ha gradeP ∧
    P_Available_kg_ha gradeP ≤ FERT_P_NEED ∧
    (Effective_P_content gradeP > 0 →
      Optimized_Dose_kg_ha gradeP =
        min (FERT_P_NEED / Effective_P_content gradeP) PHYSICAL_LIMIT_KG) ∧
    (Effective_P_content gradeP = 0 →
      Optimized_Dose_kg_ha gradeP = 0 ∧
      Potential_Reuse_Area_ha gradeP avgLoad = 0 ∧
      N_Applied_Optimized gradeN gradeP = 0 ∧
      P_Applied_Optimized gradeP = 0) := by
  have heq : P_Available_kg_ha gradeP =
      Effective_P_content gradeP * Optimized_Dose_kg_ha gradeP := by
    simp only [P_Available_kg_ha, P_Applied_Optimized, Effective_P_content]
    ring
  have hdosepos : Effective_P_content gradeP > 0 →
      Optimized_Dose_kg_ha gradeP =
        min (FERT_P_NEED / Effective_P_content gradeP) PHYSICAL_LIMIT_KG := by
    intro h
    simp [Optimized_Dose_kg_ha, Max_Allowed_Dose_kg_ha, h]
  have hcap : P_Available_kg_ha gradeP ≤ FERT_P_NEED := by
    rw [heq]
    by_cases h : Effective_P_content gradeP > 0
    · calc Effective_P_content gradeP * Optimized_Dose_kg_ha gradeP
          ≤ Effective_P_content gradeP * (FERT_P_NEED / Effective_P_content gradeP) := by
            rw [hdosepos h]
            exact mul_le_mul_of_nonneg_left (min_le_left _ _) h.le
        _ = FERT_P_NEED := by
            field_simp
    · have hd : Optimized_Dose_kg_ha gradeP = 0 := by
        simp only [Optimized_Dose_kg_ha, Max_Allowed_Dose_kg_ha, if_neg h]
        norm_num [PHYSICAL_LIMIT_KG]
      rw [hd, mul_zero]
      norm_num [FERT_P_NEED]
  refine ⟨heq, hcap, hdosepos, fun h => ?_⟩
  have hd : Optimized_Dose_kg_ha gradeP = 0 := by
    simp only [Optimized_Dose_kg_ha, Max_Allowed_Dose_kg_ha, h]
    norm_num [PHYSICAL_LIMIT_KG]
  refine ⟨hd, ?_, ?_, ?_⟩
  · simp [Potential_Reuse_Area_ha, hd]
  · simp [N_Applied_Optimized, hd]
  · simp [P_Applied_Optimized, hd]

/-- C10, witness: for grade P = 1 g/kg the effective P content 0.0008 is
positive and the optimized dose is min(22 / 0.0008, 100000) = 27500 kg/ha,
with available P = 22 ≤ 22; for grade P = 0 the effective content is 0 and
dose, reuse area and applied nutrients are all 0. -/
theorem optimized_dose_p_cap_witness :
    (Optimized_Dose_kg_ha 1 =
      min (FERT_P_NEED / Effective_P_content 1) PHYSICAL_LIMIT_KG ∧
     P_Available_kg_ha 1 ≤ FERT_P_NEED) ∧
    (Optimized_Dose_kg_ha 0 = 0 ∧
     Potential_Reuse_Area_ha 0 50 = 0 ∧
     N_Applied_Optimized 3 0 = 0 ∧
     P_Applied_Optimized 0 = 0) := by
  refine ⟨⟨(optimized_dose_p_cap 3 1 50).2.2.1 ?_, (optimized_dose_p_cap 3 1 50).2.1⟩,
    (optimized_dose_p_cap 3 0 50).2.2.2 ?_⟩ <;>
    norm_num [Effective_P_content, AVAIL_P]

end SustainableEng
